import Mathlib

/-
Verification of the execution-and-orchestration core of the
Autonomous-IT-Support-Agent repository.

The Python sources are shallowly embedded as executable Lean functions:
  * src/core/security.py   -> sanitize_input, is_command_safe, BLOCKED_COMMANDS
  * src/core/command_map.py-> COMMANDS, get_command
  * src/core/command.py    -> run_command_async (split into the pure
                              routing decision and the local retry loop)
  * src/core/remote.py     -> run_ssh_command under simulation mode
  * src/agents.py          -> run_command_safely, ValidatorAgent.validate_resolution,
                              ExecutorAgent.execute_remediation
  * src/agents/issue_classifier_agent.py -> classify_issue

External effects (the subprocess, the SSH channel, the language-model
oracle) are passed in as explicit outcome parameters; Python float
scores are modelled exactly in ℚ (no claim below depends on binary
floating-point rounding, since every decided branch is forced by a
boolean conjunct rather than by a score comparison).
-/

set_option autoImplicit false

namespace ITSupport

/-! ## Generic helpers (Python dict / substring / truthiness semantics) -/

/-- Association-list lookup, modelling Python `dict` access on the
insertion-ordered tables embedded below (all embedded dicts have
pairwise distinct keys). -/
def alookup {α : Type} : List (String × α) → String → Option α
  | [], _ => none
  | (k, v) :: rest, key => if k = key then some v else alookup rest key

/-- Check whether `pat` occurs as a contiguous subsequence of `s`
(Python `pat in s` on strings). -/
def containsSub (pat : List Char) : List Char → Bool
  | [] => pat.isEmpty
  | c :: cs => pat.isPrefixOf (c :: cs) || containsSub pat cs

/-- Python `pat in s` for strings. -/
def strContains (s pat : String) : Bool := containsSub pat.toList s.toList

/-- Python `s.startswith(pat)`. -/
def strStartsWith (s pat : String) : Bool := pat.toList.isPrefixOf s.toList

/-- Python `s.lower()` (ASCII, which covers everything the source
compares case-insensitively). -/
def strToLower (s : String) : String := ⟨s.toList.map Char.toLower⟩

/-- Replace all non-overlapping occurrences of `pat` left to right,
fuel-driven so that it evaluates inside the kernel; with
`fuel = l.length` and a non-empty `pat` the fuel never runs out. -/
def replaceAux (pat rep : List Char) : Nat → List Char → List Char
  | 0, l => l
  | _ + 1, [] => []
  | fuel + 1, c :: cs =>
    if pat.isPrefixOf (c :: cs) then rep ++ replaceAux pat rep fuel ((c :: cs).drop pat.length)
    else c :: replaceAux pat rep fuel cs

/-- Python `s.replace(pat, rep)` for the non-empty patterns the source
uses. -/
def strReplace (s pat rep : String) : String :=
  ⟨replaceAux pat.toList rep.toList s.toList.length s.toList⟩

/-- Python truthiness of an optional string (`None` and `""` are falsy). -/
def optTruthy : Option String → Bool
  | none => false
  | some s => !(s == "")

/-! ## src/core/security.py -/

/-- Characters removed by `sanitize_input` (the regex class in
`re.sub(r'[;`$><]', '', s)` at src/core/security.py line 152). -/
def dangerousChars : List Char := [';', Char.ofNat 96, '$', '>', '<']

/-- `sanitize_input` from src/core/security.py: deletes every occurrence
of `;`, backtick, `$`, `>`, `<`; all other characters (in particular
`|` and `&`) are kept in order. -/
def sanitize_input (s : String) : String :=
  ⟨s.toList.filter (fun c => !(dangerousChars.contains c))⟩

/-- `is_command_safe` from src/core/security.py lines 84-87.  The source
returns `True` unconditionally ("Disable security checks - allow all
commands"); the whitelist/blacklist matching that follows it is inside a
string literal and never runs. -/
def is_command_safe (_cmd : String) : Bool := true

/-- `DEFAULT_CMD_CFG['blacklist']` from src/core/security.py: the
blocked-command substrings that the (disabled) allow/deny check would
have matched. -/
def BLOCKED_COMMANDS : List String :=
  ["rm -rf", "shutdown", "reboot", ":()\x7b :|:& \x7d;:", "dd if=", "mkfs"]

/-! ## src/core/command_map.py -/

/-- Shared metric→command rows of `COMMANDS` (identical across the three
OS tables except for the `mysql` entry). -/
def commandRows (mysqlCmd : String) : List (String × String) :=
  [("cpu", "top -b -n1 | grep \"Cpu(s)\""),
   ("memory", "free -m"),
   ("disk", "df -h"),
   ("uptime", "uptime"),
   ("load", "cat /proc/loadavg"),
   ("tomcat", "systemctl status tomcat"),
   ("nginx", "systemctl status nginx"),
   ("mysql", mysqlCmd),
   ("rabbitmq", "systemctl status rabbitmq-server"),
   ("memcache", "systemctl status memcached"),
   ("ping", "ping -c 4 localhost"),
   ("network", "ip a"),
   ("netstat", "netstat -tuln"),
   ("ports", "ss -tuln"),
   ("dns", "dig +short"),
   ("route", "ip route"),
   ("status", "uptime && free -m && df -h")]

/-- `COMMANDS` table from src/core/command_map.py. -/
def COMMANDS : List (String × List (String × String)) :=
  [("linux", commandRows "systemctl status mysql"),
   ("centos/stream9", commandRows "systemctl status mysqld"),
   ("ubuntu/jammy64", commandRows "systemctl status mysql")]

/-- `get_command` from src/core/command_map.py:
`COMMANDS.get(os_type, {}).get(metric, '')`. -/
def get_command (os_type metric : String) : String :=
  match alookup COMMANDS os_type with
  | none => ""
  | some table => (alookup table metric).getD ""

/-! ## src/core/command.py -/

/-- One entry of the loaded server registry (`INFRA['servers'][name]`);
`os` is optional because the source reads it as
`server_info.get('os', 'linux')`. -/
structure ServerInfo where
  ip : String
  user : String
  password : String
  os : Option String
deriving DecidableEq, Repr

/-- `server_info.get('os', 'linux')`. -/
def osOf (info : ServerInfo) : String := info.os.getD "linux"

/-- `legacy_server_mapping` applied in run_command_async (src/core/command.py
lines 71-80): canonical names are rewritten to the legacy registry keys
before the registry lookup. -/
def legacyName (s : String) : String :=
  if s = "web-server-01" then "web01"
  else if s = "db-server-01" then "db01"
  else if s = "app-server-01" then "app01"
  else s

/-- OS gate of the remote branch (src/core/command.py line 132):
`os_type.lower() == 'linux' or 'centos' in os_type.lower() or 'ubuntu' in os_type.lower()`. -/
def osSupported (os : String) : Bool :=
  strToLower os == "linux" || strContains (strToLower os) "centos"
    || strContains (strToLower os) "ubuntu"

/-- Where run_command_async sends a command after its pure pre-processing:
an early rejection (returned without running anything), a remote SSH
dispatch, or the local-subprocess fallback. -/
inductive ExecDecision where
  | rejected (output : String)
  | remote (ip user password cmd serverName : String)
  | localRun (cmd : String)
deriving DecidableEq, Repr

/-- Metric-based command substitution inside the remote branch
(src/core/command.py lines 88-107): only applies when a metric is given
and the command is empty; falls back to `systemctl status {metric}` for
the known service names when the table has no entry. -/
def metricCommand (info : ServerInfo) (metric : Option String) (cmd : String) : String :=
  match metric with
  | none => cmd
  | some m =>
    if m ≠ "" ∧ cmd = "" then
      let newCmd := get_command (osOf info) m
      if newCmd ≠ "" then newCmd
      else if m ∈ ["nginx", "tomcat", "mysql", "rabbitmq", "memcache", "memcached"] then
        "systemctl status " ++ m
      else cmd
    else cmd

/-- Ping-target rewriting inside the remote branch (src/core/command.py
lines 109-123); `server` is truthy there, so the `and server` conjuncts
of the source hold. -/
def pingRewrite (info : ServerInfo) (server cmd : String) : String :=
  if cmd ≠ "" ∧ strStartsWith cmd "ping" = true ∧ strContains cmd "localhost" = true then
    strReplace cmd "localhost" server
  else if cmd = "ping" then
    "ping -c 4 " ++ info.ip
  else if cmd ≠ "" ∧ strStartsWith cmd "ping" = true ∧ strContains cmd " " = true ∧
      ¬(strContains cmd "." = true ∨ strContains cmd "localhost" = true ∨
        strContains cmd "127.0.0.1" = true) then
    cmd ++ " " ++ info.ip
  else cmd

/-- Routing decision of `run_command_async` (src/core/command.py lines
52-156): sanitize the command, apply the legacy server-name mapping, and
either reject early, dispatch over SSH (registered server with a
supported OS), or fall back to local execution.  The disabled
`is_command_safe` calls (lines 64-67 and 126-129) are commented out in
the source and therefore absent here. -/
def run_command_async_decision (infra : List (String × ServerInfo))
    (cmd0 : String) (server : Option String) (metric : Option String) : ExecDecision :=
  let cmd := sanitize_input cmd0
  let localFallback : ExecDecision :=
    if cmd = "" then .rejected "No command specified for local execution."
    else .localRun cmd
  match server with
  | none => localFallback
  | some s0 =>
    let s := legacyName s0
    if s ≠ "" then
      match alookup infra s with
      | some info =>
        let cmd1 := metricCommand info metric cmd
        let cmd2 := pingRewrite info s cmd1
        if osSupported (osOf info) then
          if cmd2 = "" then .rejected "No command specified or generated."
          else .remote info.ip info.user info.password cmd2 s
        else .rejected ("Unsupported OS type: " ++ osOf info)
      | none => localFallback
    else localFallback

/-- Result dict returned by run_command_async / run_command_safely
(`success`, `output`, `return_code`). -/
structure CommandResult where
  success : Bool
  output : String
  returnCode : Int
deriving DecidableEq, Repr

/-- Outcome of one local subprocess attempt, abstracting
`asyncio.create_subprocess_shell` + `wait_for`: the wait timed out, the
process completed with an exit code and captured streams, or creating or
awaiting it raised. -/
inductive LocalOutcome where
  | timedOut
  | completed (rc : Int) (stdout stderr : String)
  | errored (msg : String)
deriving DecidableEq, Repr

/-- Local retry loop of run_command_async (src/core/command.py lines
159-180), parameterised by the per-attempt subprocess outcome: a timeout
returns `success=False, output="Timeout", return_code=-1` immediately; a
completed process reports `rc == 0` with stderr appended on failure; an
exception retries, and after 3 failed attempts the loop gives up. -/
def runLocalAux (outcome : Nat → LocalOutcome) : Nat → Nat → CommandResult
  | _, 0 => ⟨false, "Failed after retries", -1⟩
  | attempt, remaining + 1 =>
    match outcome attempt with
    | .timedOut => ⟨false, "Timeout", -1⟩
    | .completed rc stdout stderr =>
      ⟨rc == 0, (stdout ++ (if rc ≠ 0 then stderr else "")).trim, rc⟩
    | .errored _ => runLocalAux outcome (attempt + 1) remaining

/-- The local fallback of run_command_async: `for attempt in range(3)`. -/
def run_local_exec (outcome : Nat → LocalOutcome) : CommandResult :=
  runLocalAux outcome 0 3

/-! ## src/core/remote.py (simulation mode) -/

/-- Build a Python triple-quoted transcript: a leading and a trailing
newline around the given lines. -/
def transcript (lines : List String) : String :=
  String.intercalate "\n" ([""] ++ lines ++ [""])

/-- `SIMULATED_RESPONSES` from src/core/remote.py, in dict insertion
order, with the exact canned transcripts. -/
def SIMULATED_RESPONSES : List (String × (Bool × String)) :=
  [("systemctl status nginx", (true, transcript
      ["● nginx.service - A high performance web server and a reverse proxy server",
       "   Loaded: loaded (/lib/systemd/system/nginx.service; enabled; vendor preset: enabled)",
       "   Active: active (running) since Thu 2025-05-16 00:10:31 UTC; 2h 42min ago",
       "     Docs: man:nginx(8)",
       " Main PID: 1234 (nginx)",
       "    Tasks: 2 (limit: 1153)",
       "   Memory: 9.2M",
       "   CGroup: /system.slice/nginx.service",
       "           ├─1234 nginx: master process /usr/sbin/nginx -g daemon on; master_process on;",
       "           └─1235 nginx: worker process"])),
   ("systemctl status tomcat", (true, transcript
      ["● tomcat.service - Apache Tomcat Web Application Container",
       "   Loaded: loaded (/etc/systemd/system/tomcat.service; enabled; vendor preset: enabled)",
       "   Active: active (running) since Thu 2025-05-16 00:15:23 UTC; 2h 37min ago",
       " Main PID: 1432 (java)",
       "    Tasks: 29 (limit: 1153)",
       "   Memory: 435.2M",
       "   CGroup: /system.slice/tomcat.service",
       "           └─1432 /usr/bin/java -Djava.util.logging.config.file=/opt/tomcat/conf/logging.properties..."])),
   ("systemctl status mysql", (true, transcript
      ["● mysql.service - MySQL Community Server",
       "   Loaded: loaded (/lib/systemd/system/mysql.service; enabled; vendor preset: enabled)",
       "   Active: active (running) since Thu 2025-05-16 00:05:41 UTC; 2h 47min ago",
       " Main PID: 1011 (mysqld)",
       "    Tasks: 28 (limit: 1153)",
       "   Memory: 325.0M",
       "   CGroup: /system.slice/mysql.service",
       "           └─1011 /usr/sbin/mysqld"])),
   ("systemctl status mysqld", (true, transcript
      ["● mysqld.service - MySQL Server",
       "   Loaded: loaded (/usr/lib/systemd/system/mysqld.service; enabled; vendor preset: disabled)",
       "   Active: active (running) since Thu 2025-05-16 00:05:41 UTC; 2h 47min ago",
       "  Process: 957 ExecStartPre=/usr/bin/mysqld_pre_systemd (code=exited, status=0/SUCCESS)",
       " Main PID: 1011 (mysqld)",
       "    Tasks: 28",
       "   Memory: 325.0M",
       "   CGroup: /system.slice/mysqld.service",
       "           └─1011 /usr/sbin/mysqld"])),
   ("uptime", (true, transcript
      [" 00:53:02 up 2:47, 1 user, load average: 0.08, 0.12, 0.10"])),
   ("free -m", (true, transcript
      ["               total        used        free      shared  buff/cache   available",
       "Mem:            8032        1234        3854          22        2944        6540",
       "Swap:           2048           0        2048"])),
   ("df -h", (true, transcript
      ["Filesystem      Size  Used Avail Use% Mounted on",
       "udev            3.9G     0  3.9G   0% /dev",
       "tmpfs           795M  1.7M  793M   1% /run",
       "/dev/sda1        98G   25G   69G  27% /",
       "tmpfs           3.9G     0  3.9G   0% /dev/shm",
       "tmpfs           5.0M     0  5.0M   0% /run/lock"])),
   ("top -b -n1 | grep \"Cpu(s)\"", (true, transcript
      ["%Cpu(s):  5.9 us,  3.4 sy,  0.0 ni, 89.5 id,  0.2 wa,  0.0 hi,  0.9 si,  0.0 st"])),
   ("cat /proc/loadavg", (true, transcript
      ["0.08 0.12 0.10 2/345 1011"]))]

/-- Python `s.split()[0]` on the whitespace-separated pattern keys. -/
def firstWord (s : String) : String := ⟨s.toList.takeWhile (fun c => !(c == ' '))⟩

/-- `run_ssh_command` from src/core/remote.py with `SIMULATION_MODE`
enabled (lines 111-139): reject missing host/command, then an
exact-match lookup in the canned table, then a first-word prefix match,
then a generic non-failing response (a status-flavoured one when the
command mentions `status`). -/
def run_ssh_command_sim (host user command : String) : Bool × String :=
  if host = "" ∨ command = "" then
    (false, "Missing required parameters for SSH connection")
  else
    match alookup SIMULATED_RESPONSES command with
    | some res => res
    | none =>
      match SIMULATED_RESPONSES.find? (fun p => strStartsWith command (firstWord p.1)) with
      | some p => p.2
      | none =>
        if strContains command "status" then
          (true, "Service is running\nSimulated response for: " ++ command)
        else
          (true, "Simulated output for: " ++ command ++ "\nServer: " ++ host ++ "\nUser: " ++ user)

/-! ## src/agents.py -/

/-- `run_command_safely` from src/agents.py lines 358-379, parameterised
by the outcome of the `subprocess.run` call.  Timestamps are dropped
throughout this embedding (wall-clock values). -/
def run_command_safely (outcome : LocalOutcome) (timeout : Nat) : CommandResult :=
  match outcome with
  | .completed rc stdout stderr =>
    ⟨rc == 0, if rc == 0 then stdout else (stdout ++ "\n" ++ stderr).trim, rc⟩
  | .timedOut => ⟨false, "Command timed out after " ++ toString timeout ++ " seconds", -1⟩
  | .errored m => ⟨false, "Error executing command: " ++ m, -1⟩

/-- One entry of `infra_config` as loaded in src/agents.py (required
fields `ip`, `os`, `services` are validated at load time). -/
structure AgentServerInfo where
  ip : String
  os : String
  services : List String
deriving DecidableEq, Repr

/-- One step dict of a resolution plan; `none` models an absent key,
`some ""` an empty value (both falsy for `step.get`, but only an absent
key raises in `step["step"]`). -/
structure Step where
  step : Option String
  purpose : Option String
  validation : Option String
  rollback : Option String
deriving DecidableEq, Repr

/-- A resolution plan dict as consumed by
`ValidatorAgent.validate_resolution`; `none` models an absent key. -/
structure Resolution where
  issue_summary : Option String
  severity : Option String
  service : Option String
  server : Option String
  resolution_steps : Option (List Step)
  risks : Option (List String)
  prerequisites : Option (List String)
deriving DecidableEq, Repr

/-- The ValidationVerdict dict returned by `validate_resolution`.
Scores are exact rationals standing for the source's floats. -/
structure Verdict where
  approved : Bool
  confidence : ℚ
  reason : String
  risks_identified : List String
  suggested_modifications : List String
deriving DecidableEq, Repr

/-- Required top-level plan fields missing from the dict
(src/agents.py lines 811-816), in the order the source lists them. -/
def missingFields (r : Resolution) : List String :=
  (if r.issue_summary.isNone then ["issue_summary"] else []) ++
  (if r.severity.isNone then ["severity"] else []) ++
  (if r.service.isNone then ["service"] else []) ++
  (if r.server.isNone then ["server"] else []) ++
  (if r.resolution_steps.isNone then ["resolution_steps"] else []) ++
  (if r.risks.isNone then ["risks"] else []) ++
  (if r.prerequisites.isNone then ["prerequisites"] else [])

/-- `risky_terms` from src/agents.py line 877. -/
def riskyTerms : List String := ["remove", "delete", "drop", "truncate", "restart", "stop"]

/-- Step fields reported missing by the loop at src/agents.py lines
867-870 (`not step.get(field)` for `step`, `purpose`, `validation`). -/
def stepMissingFields (st : Step) : List String :=
  (if optTruthy st.step then [] else ["step"]) ++
  (if optTruthy st.purpose then [] else ["purpose"]) ++
  (if optTruthy st.validation then [] else ["validation"])

/-- The risky-step test at src/agents.py line 878: the action text
contains a risky term and the rollback entry is falsy. -/
def stepRisky (st : Step) (actionText : String) : Bool :=
  riskyTerms.any (fun t => strContains (strToLower actionText) t) && !optTruthy st.rollback

/-- The `step_issues` list accumulated for one step (src/agents.py lines
864-880): missing fields, a missing validation command, and the
risky-without-rollback flag. -/
def stepIssues (st : Step) (actionText : String) : List String :=
  (if stepMissingFields st ≠ [] then
     ["Missing fields: " ++ String.intercalate ", " (stepMissingFields st)] else []) ++
  (if optTruthy st.validation then [] else ["No validation command"]) ++
  (if stepRisky st actionText then ["Missing rollback procedure for risky operation"] else [])

/-- Per-step loop of `validate_resolution` (src/agents.py lines
863-884), started at index `i`.  Returns the collected
`risks_identified`, the step-level `suggested_modifications` and the
score delta, or `none` when a step dict has no `step` key, in which case
`step["step"]` raises KeyError and the whole validation falls into the
`except` branch. -/
def checkSteps : List Step → Nat → Option (List String × List String × ℚ)
  | [], _ => some ([], [], 0)
  | st :: rest, i =>
    match st.step, checkSteps rest (i + 1) with
    | none, _ => none
    | some _, none => none
    | some actionText, some (rks, mds, dTail) =>
      some ((if stepRisky st actionText then
               ["Step " ++ toString (i + 1) ++ " involves risky operation without rollback"]
             else []) ++ rks,
            (if stepIssues st actionText ≠ [] then
               ["Step " ++ toString (i + 1) ++ ": " ++
                  String.intercalate "; " (stepIssues st actionText)]
             else []) ++ mds,
            (if stepIssues st actionText ≠ [] then -(1/10 : ℚ) else 0) + dTail)

/-- `ValidatorAgent.validate_resolution` from src/agents.py lines
803-918, parameterised by the server registry `cfg` (the module-global
`infra_config`). -/
def validate_resolution (cfg : List (String × AgentServerInfo)) (r : Resolution) : Verdict :=
  match r.issue_summary, r.severity, r.service, r.server,
        r.resolution_steps, r.risks, r.prerequisites with
  | some _, some sev, some svc, some srv, some steps, some risks, some prereqs =>
    let sevBad := sev ∉ (["high", "medium", "low"] : List String)
    let sevMods := if sevBad then ["Use valid severity level: high, medium, or low"] else []
    let sevDelta : ℚ := if sevBad then -(2/10) else 0
    (match alookup cfg srv with
     | none =>
       ⟨false, 0, "Server " ++ srv ++ " not found in configuration",
        ["Invalid target server"], ["Verify server name"]⟩
     | some info =>
       if svc ∉ info.services then
         ⟨false, 0, "Service " ++ svc ++ " not found on server " ++ srv,
          ["Invalid service for target server"],
          ["Available services: " ++ String.intercalate ", " info.services]⟩
       else if steps = [] then
         ⟨false, 0, "No resolution steps provided", ["Empty resolution plan"],
          ["Add detailed resolution steps"]⟩
       else
         match checkSteps steps 0 with
         | none =>
           ⟨false, 0, "Validation error: 'step'", ["Validation failed"], ["Fix validation errors"]⟩
         | some (risksIdent, stepMods, stepDelta) =>
           let riskMods := if risks = ([] : List String) then ["Add potential risks assessment"] else []
           let riskDelta : ℚ := if risks = ([] : List String) then -(1/10) else 0
           let prereqMods := if prereqs = ([] : List String) then ["Add prerequisites"] else []
           let prereqDelta : ℚ := if prereqs = ([] : List String) then -(1/10) else 0
           let score := sevDelta + stepDelta + riskDelta + prereqDelta
           let finalConfidence : ℚ := max 0 (min 1 (1 + score))
           let approved := decide ((7 : ℚ)/10 ≤ finalConfidence) && risksIdent.isEmpty
           ⟨approved, finalConfidence,
            if approved then "Resolution plan looks good" else "Issues found in resolution plan",
            risksIdent, sevMods ++ stepMods ++ riskMods ++ prereqMods⟩)
  | _, _, _, _, _, _, _ =>
    let mf := missingFields r
    ⟨false, 0, "Missing required fields: " ++ String.intercalate ", " mf,
     ["Incomplete resolution plan"], ["Add missing fields: " ++ String.intercalate ", " mf]⟩

/-- One per-step entry of an ExecutionRecord's `results` list. -/
structure StepRecord where
  step : String
  command : String
  result : CommandResult
  rollbackResult : Option CommandResult
deriving DecidableEq, Repr

/-- The `execution_record` dict built by
`ExecutorAgent.execute_remediation`. -/
structure ExecutionRecord where
  server : String
  service : String
  results : List StepRecord
  successful : Bool
deriving DecidableEq, Repr

/-- Return value of `execute_remediation`: an early error dict, or the
completed record. -/
inductive ExecOutcome where
  | error (msg : String)
  | completed (record : ExecutionRecord)
deriving DecidableEq, Repr

/-- The `execution_data` dict passed to `execute_remediation`
(`server` via `.get`, `service` via `.get(.., "")`, steps via
`.get(.., [])`). -/
structure ExecutionData where
  server : Option String
  service : String
  resolution_steps : List Step
deriving DecidableEq, Repr

/-- Step loop of `ExecutorAgent.execute_remediation` (src/agents.py
lines 1003-1041), with `runCmd` the result of
`run_command_safely(command, 300)` for each command string: a step with
a falsy validation command is skipped; the step's validation command is
run as the action; a failing step with a truthy rollback also runs the
rollback, records its result, and clears the overall flag. -/
def execSteps (runCmd : String → CommandResult) : List Step → List StepRecord × Bool
  | [] => ([], true)
  | st :: rest =>
    let tail := execSteps runCmd rest
    let stepCmd := st.validation.getD ""
    if stepCmd = "" then tail
    else
      let res := runCmd stepCmd
      if !res.success && optTruthy st.rollback then
        (⟨st.step.getD "", stepCmd, res, some (runCmd (st.rollback.getD ""))⟩ :: tail.1, false)
      else
        (⟨st.step.getD "", stepCmd, res, none⟩ :: tail.1, tail.2)

/-- `ExecutorAgent.execute_remediation` from src/agents.py lines
973-1064, parameterised by the registry and the command-outcome
oracle. -/
def execute_remediation (infra : List (String × AgentServerInfo))
    (runCmd : String → CommandResult) (d : ExecutionData) : ExecOutcome :=
  match d.server with
  | none => .error "Missing server name or resolution steps"
  | some sname =>
    if sname = "" ∨ d.resolution_steps = [] then
      .error "Missing server name or resolution steps"
    else
      match alookup infra sname with
      | none => .error ("Server " ++ sname ++ " not found in configuration")
      | some info =>
        if d.service ≠ "" ∧ strToLower d.service ∉ info.services.map strToLower then
          .error ("Service " ++ d.service ++ " is not configured on " ++ sname)
        else
          let r := execSteps runCmd d.resolution_steps
          .completed ⟨sname, d.service, r.1, r.2⟩

/-! ## src/agents/issue_classifier_agent.py -/

/-- What `json.loads` makes of the oracle's raw response: a parse
failure, or a dict whose `category` / `reason` keys may be absent. -/
inductive OracleParse where
  | failure
  | parsed (category : Option String) (reason : Option String)
deriving DecidableEq, Repr

/-- `classify_issue` from src/agents/issue_classifier_agent.py lines
22-30, parameterised by the parsed oracle response.  The issue text only
feeds the oracle prompt; the post-processing never reads it. -/
def classify_issue (_issue : String) (resp : OracleParse) : String × String :=
  match resp with
  | .failure => ("Uncategorized", "Could not classify due to response format error.")
  | .parsed c r => (c.getD "Uncategorized", r.getD "No reasoning provided.")

/-! ## Spec-side characterisations and concrete instances -/

/-- Record the executor's loop produces for one step (skipped when the
validation command is falsy), used to characterise `execSteps`. -/
def stepRecordOf (runCmd : String → CommandResult) (st : Step) : Option StepRecord :=
  let c := st.validation.getD ""
  if c = "" then none
  else
    let res := runCmd c
    some ⟨st.step.getD "", c, res,
      if !res.success && optTruthy st.rollback then some (runCmd (st.rollback.getD "")) else none⟩

/-- A step that is executed, fails, and carries a truthy rollback — the
only situation in which `execute_remediation` clears its overall
`successful` flag. -/
def failedWithRollback (runCmd : String → CommandResult) (st : Step) : Bool :=
  !(st.validation.getD "" == "") &&
    (!(runCmd (st.validation.getD "")).success && optTruthy st.rollback)

/-- A small server registry in the shape of the repository's vagrant
infra config (src/core/command.py's `INFRA['servers']`). -/
def infraW : List (String × ServerInfo) :=
  [("web01", ⟨"192.168.56.11", "vagrant", "vagrant", some "linux"⟩)]

/-- The same registry in the shape loaded by src/agents.py
(`infra_config`). -/
def infraA : List (String × AgentServerInfo) :=
  [("web01", ⟨"192.168.56.11", "linux", ["nginx"]⟩)]

/-- A command-outcome oracle on which every command fails with exit
code 1. -/
def runFail : String → CommandResult := fun _ => ⟨false, "boom", 1⟩

/-- A command-outcome oracle on which `cmd1` fails and everything else
succeeds. -/
def runMixed : String → CommandResult := fun c =>
  if c = "cmd1" then ⟨false, "boom", 1⟩ else ⟨true, "ok", 0⟩

/-- Execution data with a single failing step that has no rollback. -/
def dataNoRollback : ExecutionData :=
  ⟨some "web01", "nginx", [⟨some "restart nginx", some "recover", some "cmd1", none⟩]⟩

/-- Execution data whose first step fails and carries a rollback and
whose second step succeeds. -/
def dataWithRollback : ExecutionData :=
  ⟨some "web01", "nginx",
   [⟨some "restart nginx", some "recover", some "cmd1", some "rb1"⟩,
    ⟨some "verify nginx", some "check", some "cmd2", none⟩]⟩

/-- A structurally sound plan containing a `delete` step without
rollback. -/
def planDelete : Resolution :=
  ⟨some "cache corruption", some "high", some "nginx", some "web01",
   some [⟨some "delete the stale cache", some "free space", some "ls /var/cache", none⟩],
   some ["cache loss"], some ["backup"]⟩

/-- A plan naming a server absent from the registry. -/
def planUnknownServer : Resolution :=
  ⟨some "outage", some "high", some "nginx", some "db999",
   some [⟨some "restart nginx", some "recover", some "systemctl status nginx", some "noop"⟩],
   some ["downtime"], some ["backup"]⟩

/-- Execution data naming the same unknown server. -/
def dataUnknownServer : ExecutionData :=
  ⟨some "db999", "nginx", [⟨some "restart nginx", some "recover", some "cmd1", some "rb1"⟩]⟩

/-! ## Helper lemmas -/

theorem sanitize_toList (s : String) :
    (sanitize_input s).toList = s.toList.filter (fun c => !(dangerousChars.contains c)) := rfl

/-! ## Claim C10 -/

/-- C10: for every command string `c`, applying `sanitize_input` twice
gives the same result as applying it once. -/
theorem sanitize_input_idempotent :
    ∀ c : String, sanitize_input (sanitize_input c) = sanitize_input c := by
  intro c
  show String.mk (List.filter _ (List.filter _ c.data)) = String.mk (List.filter _ c.data)
  rw [List.filter_filter]
  simp

/-! ## Claim C9 -/

/-- C9: for every command string containing one of `;`, backtick, `$`,
`>`, `<`, the output of `sanitize_input` contains none of those
characters, the occurrences of `|` are preserved, and every adjacent
`&&` pair of the input survives in the output. -/
theorem sanitize_strips_meta_preserves_chaining (s : String)
    (_h : ∃ c ∈ s.toList, c ∈ dangerousChars) :
    (∀ c ∈ (sanitize_input s).toList, c ∉ dangerousChars) ∧
    (sanitize_input s).toList.count '|' = s.toList.count '|' ∧
    (∀ l r : List Char, s.toList = l ++ ['&', '&'] ++ r →
      ∃ l' r', (sanitize_input s).toList = l' ++ ['&', '&'] ++ r') := by
  refine ⟨?_, ?_, ?_⟩
  · intro c hc
    rw [sanitize_toList] at hc
    have hp := List.of_mem_filter hc
    simp at hp
    exact hp
  · rw [sanitize_toList]
    exact List.count_filter (by decide)
  · intro l r hs
    refine ⟨l.filter (fun c => !(dangerousChars.contains c)),
            r.filter (fun c => !(dangerousChars.contains c)), ?_⟩
    rw [sanitize_toList, hs, List.filter_append, List.filter_append]
    rfl

/-- C9 witness: a concrete command exercising every stripped character
and both preserved chaining operators. -/
theorem sanitize_strips_meta_witness :
    (∀ c ∈ (sanitize_input "uptime; free -m > f < g `id` $HOME | grep load && df -h").toList,
        c ∉ dangerousChars) ∧
    (sanitize_input "uptime; free -m > f < g `id` $HOME | grep load && df -h").toList.count '|' =
      "uptime; free -m > f < g `id` $HOME | grep load && df -h".toList.count '|' ∧
    (∀ l r : List Char,
      "uptime; free -m > f < g `id` $HOME | grep load && df -h".toList = l ++ ['&', '&'] ++ r →
      ∃ l' r',
        (sanitize_input "uptime; free -m > f < g `id` $HOME | grep load && df -h").toList =
          l' ++ ['&', '&'] ++ r') :=
  sanitize_strips_meta_preserves_chaining
    "uptime; free -m > f < g `id` $HOME | grep load && df -h" ⟨';', by decide, by decide⟩

/-! ## Claim C3 -/

/-- C3 counterexample: with the issue text containing the general-query
keyword `status` and the oracle proposing `needs_resolution` (the
oracle's confidence — whatever it is, e.g. 0.5 — is never read by the
code), `classify_issue` returns the oracle's category and reason
verbatim: the category is not `general_query` and nothing is appended to
the reason. -/
theorem classifier_no_keyword_override_counterexample :
    classify_issue "show status of the server"
        (.parsed (some "needs_resolution") (some "service appears down")) =
      ("needs_resolution", "service appears down") ∧
    ("needs_resolution" : String) ≠ "general_query" :=
  ⟨rfl, by decide⟩

/-- C3 amended: `classify_issue` returns the oracle's proposed category
and reason unchanged (with fixed defaults for absent keys and a fixed
parse-failure result) and is independent of the issue text: no
confidence threshold is consulted, no keyword table re-examines the
issue, and nothing is ever appended to the reason string. -/
theorem classify_issue_returns_oracle_verbatim
    (issue issue' : String) (resp : OracleParse) (c r : String) :
    classify_issue issue (.parsed (some c) (some r)) = (c, r) ∧
    classify_issue issue resp = classify_issue issue' resp ∧
    classify_issue issue .failure =
      ("Uncategorized", "Could not classify due to response format error.") := by
  refine ⟨rfl, ?_, rfl⟩
  cases resp <;> rfl

/-! ## Claim C1 -/

/-- C1 counterexample: `rm -rf` is a blacklist substring, yet
`is_command_safe` accepts a command containing it and
`run_command_async` dispatches such commands to local and to remote
execution instead of returning a rejection result. -/
theorem blocked_command_executes_counterexample :
    "rm -rf" ∈ BLOCKED_COMMANDS ∧
    strContains "rm -rf /var/cache" "rm -rf" = true ∧
    is_command_safe "rm -rf /var/cache" = true ∧
    run_command_async_decision infraW "rm -rf /var/cache" none none =
      .localRun "rm -rf /var/cache" ∧
    run_command_async_decision infraW "shutdown now" (some "web01") none =
      .remote "192.168.56.11" "vagrant" "vagrant" "shutdown now" "web01" := by
  decide

/-- C1 amended: every command submitted to `run_command_async` passes
through `sanitize_input` before it runs, but no allow/deny check is
applied: `is_command_safe` returns `true` for every command (and its
call sites in run_command_async are commented out), so a command
containing a blacklist substring is executed, never rejected. -/
theorem run_command_async_sanitizes_without_deny
    (infra : List (String × ServerInfo)) (cmd : String) (metric : Option String)
    (h : sanitize_input cmd ≠ "") :
    run_command_async_decision infra cmd none metric = .localRun (sanitize_input cmd) ∧
    ∀ c, is_command_safe c = true := by
  refine ⟨?_, fun c => rfl⟩
  simp [run_command_async_decision, h]

/-- C1 witness for the amended theorem. -/
theorem run_command_async_sanitizes_witness :
    run_command_async_decision [] "uptime && df -h" none none =
      .localRun (sanitize_input "uptime && df -h") ∧
    ∀ c, is_command_safe c = true :=
  run_command_async_sanitizes_without_deny [] "uptime && df -h" none (by decide)

/-! ## Claim C6 -/

/-- C6 counterexample: `web-server-01` is not a key of the registry,
yet the command is executed remotely on `web01` (via the hard-coded
legacy-name mapping), not locally as a call with no server would be. -/
theorem legacy_name_remote_counterexample :
    alookup infraW "web-server-01" = none ∧
    run_command_async_decision infraW "uptime" (some "web-server-01") none =
      .remote "192.168.56.11" "vagrant" "vagrant" "uptime" "web01" ∧
    run_command_async_decision infraW "uptime" none none = .localRun "uptime" ∧
    ExecDecision.remote "192.168.56.11" "vagrant" "vagrant" "uptime" "web01" ≠
      ExecDecision.localRun "uptime" := by
  decide

/-- C6 amended: a server argument whose legacy-mapped name
(`web-server-01 → web01`, `db-server-01 → db01`, `app-server-01 →
app01`, identity otherwise) is not a key of the registry makes
`run_command_async` behave exactly as a call with no server: it silently
falls back to executing the (sanitized, non-empty) command as a local
subprocess, with no unknown-server error. -/
theorem unknown_server_silent_local_fallback
    (infra : List (String × ServerInfo)) (cmd server : String) (metric : Option String)
    (h : alookup infra (legacyName server) = none)
    (hcmd : sanitize_input cmd ≠ "") :
    run_command_async_decision infra cmd (some server) metric =
      run_command_async_decision infra cmd none metric ∧
    run_command_async_decision infra cmd (some server) metric =
      .localRun (sanitize_input cmd) := by
  have heq : run_command_async_decision infra cmd (some server) metric =
      run_command_async_decision infra cmd none metric := by
    by_cases hs : legacyName server = ""
    · simp [run_command_async_decision, hs]
    · simp [run_command_async_decision, hs, h]
  refine ⟨heq, ?_⟩
  rw [heq]
  simp [run_command_async_decision, hcmd]

/-- C6 witness for the amended theorem. -/
theorem unknown_server_fallback_witness :
    run_command_async_decision infraW "free -m" (some "db999") none =
      run_command_async_decision infraW "free -m" none none ∧
    run_command_async_decision infraW "free -m" (some "db999") none =
      .localRun (sanitize_input "free -m") :=
  unknown_server_silent_local_fallback infraW "free -m" "db999" none (by decide) (by decide)

/-! ## Claim C8 -/

/-- C8: when the local subprocess (first reached after only
spawn-errors, which are the retried outcomes) exceeds its timeout, the
local execution loop of run_command_async returns
`success=false, return_code=-1, output="Timeout"`, and
`run_command_safely` maps a `subprocess.TimeoutExpired` to
`success=false, return_code=-1` as well. -/
theorem local_timeout_returns_failure
    (outcome : Nat → LocalOutcome) (k t : Nat)
    (hk : k < 3) (hto : outcome k = .timedOut)
    (hprev : ∀ j, j < k → ∃ m, outcome j = .errored m) :
    run_local_exec outcome = ⟨false, "Timeout", -1⟩ ∧
    run_command_safely .timedOut t =
      ⟨false, "Command timed out after " ++ toString t ++ " seconds", -1⟩ := by
  refine ⟨?_, rfl⟩
  interval_cases k
  · simp [run_local_exec, runLocalAux, hto]
  · obtain ⟨m0, h0⟩ := hprev 0 (by omega)
    simp [run_local_exec, runLocalAux, h0, hto]
  · obtain ⟨m0, h0⟩ := hprev 0 (by omega)
    obtain ⟨m1, h1⟩ := hprev 1 (by omega)
    simp [run_local_exec, runLocalAux, h0, h1, hto]

/-- C8 witness: a subprocess that times out on the first attempt. -/
theorem local_timeout_witness :
    run_local_exec (fun _ => LocalOutcome.timedOut) = ⟨false, "Timeout", -1⟩ ∧
    run_command_safely .timedOut 30 =
      ⟨false, "Command timed out after " ++ toString 30 ++ " seconds", -1⟩ :=
  local_timeout_returns_failure (fun _ => .timedOut) 0 30 (by decide) rfl
    (fun j hj => absurd hj (Nat.not_lt_zero j))

/-! ## Claim C2 -/

theorem execSteps_eq (runCmd : String → CommandResult) (steps : List Step) :
    execSteps runCmd steps =
      (steps.filterMap (stepRecordOf runCmd), !steps.any (failedWithRollback runCmd)) := by
  induction steps with
  | nil => rfl
  | cons st rest ih =>
    by_cases h : st.validation.getD "" = ""
    · have hf : failedWithRollback runCmd st = false := by
        simp [failedWithRollback, h]
      simp [execSteps, ih, stepRecordOf, h, hf]
    · by_cases htr : (!(runCmd (st.validation.getD "")).success && optTruthy st.rollback) = true
      · have hf : failedWithRollback runCmd st = true := by
          rw [failedWithRollback, htr, Bool.and_true]
          simp [h]
        simp [execSteps, ih, stepRecordOf, h, htr, hf]
      · have htrf := Bool.eq_false_iff.mpr htr
        have hf : failedWithRollback runCmd st = false := by
          rw [failedWithRollback, htrf, Bool.and_false]
        simp [execSteps, ih, stepRecordOf, h, htrf, hf]

/-- C2 counterexample: a plan whose single step's command fails and has
no rollback still completes with `successful = true` — the source only
clears `execution_successful` inside the failing-step-with-rollback
branch (src/agents.py lines 1030-1039). -/
theorem executor_flag_counterexample :
    execute_remediation infraA runFail dataNoRollback =
      .completed ⟨"web01", "nginx",
        [⟨"restart nginx", "cmd1", ⟨false, "boom", 1⟩, none⟩], true⟩ := by
  decide

/-- C2 amended: under the executor's preconditions, every step with a
truthy validation command is executed and recorded in order (execution
continues past failures), a failing step with a truthy rollback has the
rollback executed and recorded in that step's result, and the record's
overall `successful` flag is false exactly when some executed step
failed AND carried a rollback command — a failing step without rollback
leaves the flag true. -/
theorem executor_continues_and_rolls_back
    (infra : List (String × AgentServerInfo)) (runCmd : String → CommandResult)
    (d : ExecutionData) (sname : String) (info : AgentServerInfo)
    (hs : d.server = some sname) (hs' : sname ≠ "") (hst : d.resolution_steps ≠ [])
    (hlook : alookup infra sname = some info)
    (hsvc : d.service = "" ∨ strToLower d.service ∈ info.services.map strToLower) :
    execute_remediation infra runCmd d =
      .completed ⟨sname, d.service,
        d.resolution_steps.filterMap (stepRecordOf runCmd),
        !d.resolution_steps.any (failedWithRollback runCmd)⟩ := by
  have hguard : ¬(sname = "" ∨ d.resolution_steps = []) := by
    rintro (h1 | h2)
    · exact hs' h1
    · exact hst h2
  have hsvc' : ¬(d.service ≠ "" ∧ strToLower d.service ∉ info.services.map strToLower) := by
    rcases hsvc with h1 | h2
    · exact fun hc => hc.1 h1
    · exact fun hc => hc.2 h2
  simp only [execute_remediation, hs, hlook, if_neg hguard, if_neg hsvc', execSteps_eq]

/-- C2 witness for the amended theorem: first step fails and is rolled
back, second step succeeds and is still executed. -/
theorem executor_continues_witness :
    execute_remediation infraA runMixed dataWithRollback =
      .completed ⟨"web01", "nginx",
        dataWithRollback.resolution_steps.filterMap (stepRecordOf runMixed),
        !dataWithRollback.resolution_steps.any (failedWithRollback runMixed)⟩ :=
  executor_continues_and_rolls_back infraA runMixed dataWithRollback "web01"
    ⟨"192.168.56.11", "linux", ["nginx"]⟩ rfl (by decide) (by decide) (by decide)
    (Or.inr (by decide))

/-! ## Claim C4 -/

theorem checkSteps_isSome : ∀ (steps : List Step) (i0 : Nat),
    (∀ st ∈ steps, (st.step).isSome = true) →
    ∃ rks mds dq, checkSteps steps i0 = some (rks, mds, dq)
  | [], _, _ => ⟨[], [], 0, rfl⟩
  | st :: rest, i0, hall => by
    obtain ⟨a, ha⟩ := Option.isSome_iff_exists.mp (hall st (List.mem_cons_self st rest))
    obtain ⟨rks, mds, dq, hrec⟩ :=
      checkSteps_isSome rest (i0 + 1) (fun st' h' => hall st' (List.mem_cons_of_mem st h'))
    exact ⟨_, _, _, by rw [checkSteps, ha, hrec]⟩

theorem checkSteps_risky_mem : ∀ (steps : List Step) (i0 j : Nat) (st : Step) (a : String)
    (rks mds : List String) (dq : ℚ),
    steps.get? j = some st → st.step = some a → stepRisky st a = true →
    checkSteps steps i0 = some (rks, mds, dq) →
    ("Step " ++ toString (i0 + j + 1) ++ " involves risky operation without rollback") ∈ rks
  | [], _, j, st, a, rks, mds, dq, hj, _, _, _ => by simp at hj
  | st0 :: rest, i0, 0, st, a, rks, mds, dq, hj, ha, hr, hres => by
    have hst : st0 = st := by
      simpa using hj
    subst hst
    cases hrec : checkSteps rest (i0 + 1) with
    | none => rw [checkSteps, ha, hrec] at hres; simp at hres
    | some out =>
      obtain ⟨rks', mds', dq'⟩ := out
      rw [checkSteps, ha, hrec] at hres
      simp only [Option.some.injEq, Prod.mk.injEq] at hres
      obtain ⟨hrks, -, -⟩ := hres
      rw [← hrks, if_pos hr]
      simp
  | st0 :: rest, i0, j + 1, st, a, rks, mds, dq, hj, ha, hr, hres => by
    have hj' : rest.get? j = some st := hj
    cases h0 : st0.step with
    | none => rw [checkSteps, h0] at hres; simp at hres
    | some a0 =>
      cases hrec : checkSteps rest (i0 + 1) with
      | none => rw [checkSteps, h0, hrec] at hres; simp at hres
      | some out =>
        obtain ⟨rks', mds', dq'⟩ := out
        rw [checkSteps, h0, hrec] at hres
        simp only [Option.some.injEq, Prod.mk.injEq] at hres
        obtain ⟨hrks, -, -⟩ := hres
        have hmem := checkSteps_risky_mem rest (i0 + 1) j st a rks' mds' dq' hj' ha hr hrec
        have harith : i0 + 1 + j + 1 = i0 + (j + 1) + 1 := by omega
        rw [harith] at hmem
        rw [← hrks]
        exact List.mem_append_right _ hmem

/-- C4: a structurally sound plan (required fields present, registered
server, service managed by it, non-empty step list, every step dict
carrying its `step` key) that contains a step whose action text includes
`delete` and whose rollback entry is falsy gets that step flagged in
`risks_identified`, and the plan is not approved — the approval
conjunction requires `risks_identified` to be empty regardless of the
computed confidence. -/
theorem risky_delete_step_never_approved
    (cfg : List (String × AgentServerInfo)) (r : Resolution)
    (su sev svc srv : String) (steps : List Step) (risks prereqs : List String)
    (info : AgentServerInfo) (j : Nat) (st : Step) (a : String)
    (h1 : r.issue_summary = some su) (h2 : r.severity = some sev)
    (h3 : r.service = some svc) (h4 : r.server = some srv)
    (h5 : r.resolution_steps = some steps) (h6 : r.risks = some risks)
    (h7 : r.prerequisites = some prereqs)
    (hlook : alookup cfg srv = some info) (hsvc : svc ∈ info.services)
    (hne : steps ≠ [])
    (hall : ∀ st' ∈ steps, (st'.step).isSome = true)
    (hj : steps.get? j = some st) (ha : st.step = some a)
    (hdel : strContains (strToLower a) "delete" = true)
    (hrb : optTruthy st.rollback = false) :
    ("Step " ++ toString (j + 1) ++ " involves risky operation without rollback")
        ∈ (validate_resolution cfg r).risks_identified ∧
    (validate_resolution cfg r).approved = false := by
  have hrisky : stepRisky st a = true := by
    rw [stepRisky, hrb]
    simp only [Bool.not_false, Bool.and_true, List.any_eq_true]
    exact ⟨"delete", by decide, hdel⟩
  obtain ⟨rks, mds, dq, hres⟩ := checkSteps_isSome steps 0 hall
  have hmem := checkSteps_risky_mem steps 0 j st a rks mds dq hj ha hrisky hres
  rw [Nat.zero_add] at hmem
  have hempty : rks.isEmpty = false := by
    cases rks with
    | nil => simp at hmem
    | cons x xs => rfl
  simp only [validate_resolution, h1, h2, h3, h4, h5, h6, h7, hlook,
    if_neg (not_not_intro hsvc), if_neg hne, hres]
  exact ⟨hmem, by simp [hempty]⟩

/-- C4 witness: a concrete plan with one `delete` step lacking a
rollback, on a registered server running the named service. -/
theorem risky_delete_witness :
    ("Step " ++ toString (0 + 1) ++ " involves risky operation without rollback")
        ∈ (validate_resolution infraA planDelete).risks_identified ∧
    (validate_resolution infraA planDelete).approved = false :=
  risky_delete_step_never_approved infraA planDelete
    "cache corruption" "high" "nginx" "web01"
    [⟨some "delete the stale cache", some "free space", some "ls /var/cache", none⟩]
    ["cache loss"] ["backup"]
    ⟨"192.168.56.11", "linux", ["nginx"]⟩ 0
    ⟨some "delete the stale cache", some "free space", some "ls /var/cache", none⟩
    "delete the stale cache"
    rfl rfl rfl rfl rfl rfl rfl (by decide) (by decide) (by decide) (by decide)
    rfl rfl (by decide) rfl

/-! ## Claim C5 -/

/-- C5: a plan naming a server that is not a key of the registry is
rejected by `validate_resolution` with `approved=false` and
`confidence=0` (whether or not other required fields are present), and
`execute_remediation` refuses the same data with an error before any
step runs: the plan never reaches execution. -/
theorem unknown_server_rejected_and_not_executed
    (cfg : List (String × AgentServerInfo)) (r : Resolution) (srv : String)
    (runCmd : String → CommandResult) (d : ExecutionData)
    (hr : r.server = some srv) (hd : d.server = some srv)
    (hlook : alookup cfg srv = none) :
    ((validate_resolution cfg r).approved = false ∧
     (validate_resolution cfg r).confidence = 0) ∧
    ∃ msg, execute_remediation cfg runCmd d = .error msg := by
  constructor
  · rcases r with ⟨f1, f2, f3, f4, f5, f6, f7⟩
    have hr' : f4 = some srv := hr
    subst hr'
    cases f1 <;> cases f2 <;> cases f3 <;> cases f5 <;> cases f6 <;> cases f7 <;>
      simp [validate_resolution, hlook]
  · by_cases hs : srv = "" ∨ d.resolution_steps = []
    · exact ⟨"Missing server name or resolution steps",
        by simp only [execute_remediation, hd, if_pos hs]⟩
    · exact ⟨"Server " ++ srv ++ " not found in configuration",
        by simp only [execute_remediation, hd, if_neg hs, hlook]⟩

/-- C5 witness: a concrete plan and execution data naming the
unregistered server `db999`. -/
theorem unknown_server_rejected_witness :
    ((validate_resolution infraA planUnknownServer).approved = false ∧
     (validate_resolution infraA planUnknownServer).confidence = 0) ∧
    ∃ msg, execute_remediation infraA runFail dataUnknownServer = .error msg :=
  unknown_server_rejected_and_not_executed infraA planUnknownServer "db999"
    runFail dataUnknownServer rfl rfl (by decide)

/-! ## Claim C7 -/

/-- C7: under simulation mode, a command that exactly matches a key of
the canned table gets exactly that canned `(success, output)` pair, and
a command matching no canned entry (neither exactly nor by first-word
prefix) gets a non-failing generic response: `success=true` with one of
the two generic simulated-output strings. -/
theorem sim_returns_canned_or_generic :
    (∀ host user command out, host ≠ "" → command ≠ "" →
       alookup SIMULATED_RESPONSES command = some out →
       run_ssh_command_sim host user command = out) ∧
    (∀ host user command, host ≠ "" → command ≠ "" →
       alookup SIMULATED_RESPONSES command = none →
       SIMULATED_RESPONSES.find? (fun p => strStartsWith command (firstWord p.1)) = none →
       (run_ssh_command_sim host user command).1 = true ∧
       ((run_ssh_command_sim host user command).2 =
          "Service is running\nSimulated response for: " ++ command ∨
        (run_ssh_command_sim host user command).2 =
          "Simulated output for: " ++ command ++ "\nServer: " ++ host ++ "\nUser: " ++ user)) := by
  constructor
  · intro host user command out hh hc hlk
    rw [run_ssh_command_sim, if_neg (by simp [hh, hc]), hlk]
  · intro host user command hh hc hlk hfind
    rw [run_ssh_command_sim, if_neg (by simp [hh, hc]), hlk, hfind]
    by_cases hst : strContains command "status" = true
    · rw [if_pos hst]
      exact ⟨rfl, Or.inl rfl⟩
    · rw [if_neg hst]
      exact ⟨rfl, Or.inr rfl⟩

/-- C7 witness: the canned `uptime` transcript for an exact match, and
the generic response for an unmatched command. -/
theorem sim_canned_witness :
    run_ssh_command_sim "192.168.56.11" "vagrant" "uptime" =
      (true, transcript [" 00:53:02 up 2:47, 1 user, load average: 0.08, 0.12, 0.10"]) ∧
    (run_ssh_command_sim "192.168.56.11" "vagrant" "echo hello").1 = true ∧
    ((run_ssh_command_sim "192.168.56.11" "vagrant" "echo hello").2 =
       "Service is running\nSimulated response for: echo hello" ∨
     (run_ssh_command_sim "192.168.56.11" "vagrant" "echo hello").2 =
       "Simulated output for: echo hello\nServer: 192.168.56.11\nUser: vagrant") :=
  ⟨sim_returns_canned_or_generic.1 "192.168.56.11" "vagrant" "uptime"
     (true, transcript [" 00:53:02 up 2:47, 1 user, load average: 0.08, 0.12, 0.10"])
     (by decide) (by decide) (by decide),
   sim_returns_canned_or_generic.2 "192.168.56.11" "vagrant" "echo hello"
     (by decide) (by decide) (by decide) (by decide)⟩

end ITSupport
